import Mathlib

/-!
Verification of the commission calculator of a dealership sales-tracking app.
The calculator lives in `src/lib/supabase.ts` as `calculateCommissions`,
a pure function from a `SaleEntry` record to a `CommissionBreakdown`.
Monetary amounts are whole currency units, modelled as `Int`; optional
record fields are modelled as `Option Int`.  JavaScript truthiness of an
optional numeric field (`if (sale.accessories_price)`) means the field is
present and its value is non-zero.
-/

/-- The `sale_type` union `'New' | 'Used' | 'Trade-In'` from `SaleEntry`. -/
inductive SaleType where
  | New
  | Used
  | TradeIn
deriving DecidableEq, Repr

/-- The `shared_status` union `'pending' | 'accepted' | 'rejected'`. -/
inductive SharedStatus where
  | pending
  | accepted
  | rejected
deriving DecidableEq, Repr

/-- The `SaleEntry` interface from `src/lib/supabase.ts` (lines 8-24).
Fields marked `?` in TypeScript become `Option` here. -/
structure SaleEntry where
  id : String
  user_id : String
  stock_number : String
  customer_name : String
  sale_type : SaleType
  sale_price : Int
  accessories_price : Option Int := none
  warranty_price : Option Int := none
  warranty_cost : Option Int := none
  maintenance_price : Option Int := none
  maintenance_cost : Option Int := none
  shared_with_email : Option String := none
  shared_with_id : Option String := none
  shared_status : Option SharedStatus := none
  date : String
deriving DecidableEq, Repr

/-- The anonymous record returned by `calculateCommissions`
(lines 107-113 of `src/lib/supabase.ts`). -/
structure CommissionBreakdown where
  carCommission : Int
  accessoriesCommission : Int
  warrantyCommission : Int
  maintenanceCommission : Int
  totalCommission : Int
deriving DecidableEq, Repr

/-- JavaScript truthiness of an optional numeric field: present and non-zero. -/
def truthy : Option Int → Bool
  | none => false
  | some v => v != 0

/-- `calculateCommissions` from `src/lib/supabase.ts` (lines 68-114),
translated clause by clause.  `Math.floor(profit / 1000)` on integer inputs
is integer floor division, `Int.fdiv`. -/
def calculateCommissions (sale : SaleEntry) : CommissionBreakdown :=
  -- Car commission based on sale price
  let carCommission : Int :=
    if sale.sale_price < 10000 then 200
    else if sale.sale_price < 20000 then 300
    else if sale.sale_price < 30000 then 400
    else 500
  -- Accessories commission
  let accessoriesCommission : Int :=
    if truthy sale.accessories_price then
      let threshold : Int := if sale.sale_type = SaleType.New then 988 else 488
      let eligibleAmount := sale.accessories_price.getD 0 - threshold
      if eligibleAmount > 800 then 100 else 0
    else 0
  -- Warranty commission
  let warrantyCommission : Int :=
    if truthy sale.warranty_price && truthy sale.warranty_cost then
      let profit := sale.warranty_price.getD 0 - sale.warranty_cost.getD 0
      Int.fdiv profit 1000 * 100
    else 0
  -- Maintenance commission
  let maintenanceCommission : Int :=
    if truthy sale.maintenance_price && sale.maintenance_price.getD 0 > 800 then 100
    else 0
  let totalCommission :=
    carCommission + accessoriesCommission + warrantyCommission + maintenanceCommission
  { carCommission := carCommission
    accessoriesCommission := accessoriesCommission
    warrantyCommission := warrantyCommission
    maintenanceCommission := maintenanceCommission
    totalCommission := totalCommission }

theorem calc_car (s : SaleEntry) :
    (calculateCommissions s).carCommission =
      if s.sale_price < 10000 then 200
      else if s.sale_price < 20000 then 300
      else if s.sale_price < 30000 then 400
      else 500 := rfl

theorem calc_acc (s : SaleEntry) :
    (calculateCommissions s).accessoriesCommission =
      if truthy s.accessories_price then
        if s.accessories_price.getD 0 -
            (if s.sale_type = SaleType.New then 988 else 488) > 800 then 100 else 0
      else 0 := rfl

theorem calc_warr (s : SaleEntry) :
    (calculateCommissions s).warrantyCommission =
      if truthy s.warranty_price && truthy s.warranty_cost then
        Int.fdiv (s.warranty_price.getD 0 - s.warranty_cost.getD 0) 1000 * 100
      else 0 := rfl

theorem calc_maint (s : SaleEntry) :
    (calculateCommissions s).maintenanceCommission =
      if truthy s.maintenance_price && s.maintenance_price.getD 0 > 800 then 100
      else 0 := rfl

theorem calc_total (s : SaleEntry) :
    (calculateCommissions s).totalCommission =
      (calculateCommissions s).carCommission +
      (calculateCommissions s).accessoriesCommission +
      (calculateCommissions s).warrantyCommission +
      (calculateCommissions s).maintenanceCommission := rfl

/-- C1: for every `SaleEntry`, `totalCommission` equals the sum of the four
component fields of the same `CommissionBreakdown`, including inputs whose
warranty profit is negative. -/
theorem total_eq_sum_of_components (s : SaleEntry) :
    (calculateCommissions s).totalCommission =
      (calculateCommissions s).carCommission +
      (calculateCommissions s).accessoriesCommission +
      (calculateCommissions s).warrantyCommission +
      (calculateCommissions s).maintenanceCommission := rfl

/-- The null-check variant of `calculateCommissions` described by the spec's
open question: an optional field disables the accessories, warranty, or
maintenance computation only when absent, and zero counts as a present value.
It differs from the source function only in the three guards. -/
def calculateCommissionsNullCheck (sale : SaleEntry) : CommissionBreakdown :=
  let carCommission : Int :=
    if sale.sale_price < 10000 then 200
    else if sale.sale_price < 20000 then 300
    else if sale.sale_price < 30000 then 400
    else 500
  let accessoriesCommission : Int :=
    if sale.accessories_price.isSome then
      let threshold : Int := if sale.sale_type = SaleType.New then 988 else 488
      let eligibleAmount := sale.accessories_price.getD 0 - threshold
      if eligibleAmount > 800 then 100 else 0
    else 0
  let warrantyCommission : Int :=
    if sale.warranty_price.isSome && sale.warranty_cost.isSome then
      let profit := sale.warranty_price.getD 0 - sale.warranty_cost.getD 0
      Int.fdiv profit 1000 * 100
    else 0
  let maintenanceCommission : Int :=
    if sale.maintenance_price.isSome && sale.maintenance_price.getD 0 > 800 then 100
    else 0
  let totalCommission :=
    carCommission + accessoriesCommission + warrantyCommission + maintenanceCommission
  { carCommission := carCommission
    accessoriesCommission := accessoriesCommission
    warrantyCommission := warrantyCommission
    maintenanceCommission := maintenanceCommission
    totalCommission := totalCommission }

theorem calcNull_car (s : SaleEntry) :
    (calculateCommissionsNullCheck s).carCommission =
      if s.sale_price < 10000 then 200
      else if s.sale_price < 20000 then 300
      else if s.sale_price < 30000 then 400
      else 500 := rfl

theorem calcNull_acc (s : SaleEntry) :
    (calculateCommissionsNullCheck s).accessoriesCommission =
      if s.accessories_price.isSome then
        if s.accessories_price.getD 0 -
            (if s.sale_type = SaleType.New then 988 else 488) > 800 then 100 else 0
      else 0 := rfl

theorem calcNull_warr (s : SaleEntry) :
    (calculateCommissionsNullCheck s).warrantyCommission =
      if s.warranty_price.isSome && s.warranty_cost.isSome then
        Int.fdiv (s.warranty_price.getD 0 - s.warranty_cost.getD 0) 1000 * 100
      else 0 := rfl

theorem calcNull_maint (s : SaleEntry) :
    (calculateCommissionsNullCheck s).maintenanceCommission =
      if s.maintenance_price.isSome && s.maintenance_price.getD 0 > 800 then 100
      else 0 := rfl

theorem calcNull_total (s : SaleEntry) :
    (calculateCommissionsNullCheck s).totalCommission =
      (calculateCommissionsNullCheck s).carCommission +
      (calculateCommissionsNullCheck s).accessoriesCommission +
      (calculateCommissionsNullCheck s).warrantyCommission +
      (calculateCommissionsNullCheck s).maintenanceCommission := rfl

/-- A concrete sale record used to instantiate theorems at explicit inputs;
variants below override individual fields. -/
def baseSale : SaleEntry :=
  { id := "sale-1"
    user_id := "user-1"
    stock_number := "ST100"
    customer_name := "Ada"
    sale_type := SaleType.Used
    sale_price := 15000
    date := "2024-01-15" }

/-- A sale whose warranty profit is negative: price 500, cost 1000. -/
def saleNegProfit : SaleEntry :=
  { baseSale with warranty_price := some 500, warranty_cost := some 1000 }

/-- C2: whenever `warranty_price` and `warranty_cost` are both present and
non-zero, `warrantyCommission` is the floor of the profit divided by 1000,
times 100, with floor rounding toward negative infinity. -/
theorem warranty_commission_floor_div (s : SaleEntry) (wp wc : Int)
    (hp : s.warranty_price = some wp) (hc : s.warranty_cost = some wc)
    (hp0 : wp ≠ 0) (hc0 : wc ≠ 0) :
    (calculateCommissions s).warrantyCommission = Int.fdiv (wp - wc) 1000 * 100 := by
  rw [calc_warr, hp, hc]
  simp [truthy, bne_iff_ne, hp0, hc0]

/-- Witness for C2: warranty price 500 and cost 1000 give commission
`fdiv (-500) 1000 * 100 = -100`, not 0. -/
theorem warranty_commission_floor_div_witness :
    (calculateCommissions saleNegProfit).warrantyCommission =
        Int.fdiv (500 - 1000) 1000 * 100 ∧
      Int.fdiv ((500 : Int) - 1000) 1000 * 100 = -100 :=
  ⟨warranty_commission_floor_div saleNegProfit 500 1000 rfl rfl
      (by decide) (by decide),
    by decide⟩

/-- Counterexample to C3: on a sale with warranty price 500 and cost 1000 the
warranty commission is -100, so not all components are non-negative. -/
theorem components_nonneg_cex :
    (calculateCommissions saleNegProfit).warrantyCommission = -100 ∧
      ¬ 0 ≤ (calculateCommissions saleNegProfit).warrantyCommission := by
  decide

/-- C3 as amended: all components and the total are integers, and the car,
accessories, and maintenance components are non-negative; the warranty
component (and with it the total) may be negative. -/
theorem car_acc_maint_nonneg (s : SaleEntry) :
    0 ≤ (calculateCommissions s).carCommission ∧
      0 ≤ (calculateCommissions s).accessoriesCommission ∧
      0 ≤ (calculateCommissions s).maintenanceCommission := by
  refine ⟨?_, ?_, ?_⟩
  · rw [calc_car]; split_ifs <;> decide
  · rw [calc_acc]; split_ifs <;> decide
  · rw [calc_maint]; split_ifs <;> decide

theorem truthy_null_acc_agree (s : SaleEntry) :
    (calculateCommissions s).accessoriesCommission =
      (calculateCommissionsNullCheck s).accessoriesCommission := by
  rw [calc_acc, calcNull_acc]
  cases hap : s.accessories_price with
  | none => simp [truthy]
  | some a =>
    by_cases ha : a = 0
    · subst ha
      by_cases ht : s.sale_type = SaleType.New <;> simp [truthy, ht]
    · simp [truthy, bne_iff_ne, ha]

theorem truthy_null_maint_agree (s : SaleEntry) :
    (calculateCommissions s).maintenanceCommission =
      (calculateCommissionsNullCheck s).maintenanceCommission := by
  rw [calc_maint, calcNull_maint]
  cases hmp : s.maintenance_price with
  | none => simp [truthy]
  | some m =>
    by_cases hm : m = 0
    · subst hm; decide
    · simp [truthy, bne_iff_ne, hm]

theorem truthy_null_warr_agree (s : SaleEntry)
    (hp : s.warranty_price ≠ some 0) (hc : s.warranty_cost ≠ some 0) :
    (calculateCommissions s).warrantyCommission =
      (calculateCommissionsNullCheck s).warrantyCommission := by
  rw [calc_warr, calcNull_warr]
  cases hwp : s.warranty_price with
  | none => simp [truthy]
  | some p =>
    cases hwc : s.warranty_cost with
    | none => simp [truthy]
    | some c =>
      rw [hwp] at hp
      rw [hwc] at hc
      have hp0 : p ≠ 0 := fun h => hp (by rw [h])
      have hc0 : c ≠ 0 := fun h => hc (by rw [h])
      simp [truthy, bne_iff_ne, hp0, hc0]

/-- Counterexample to C4: on a sale whose `warranty_price` is present with
value 0 and whose `warranty_cost` is 1000, the truthy-check code returns
warranty commission 0 while the null-check variant returns -100, so the two
variants are not identical on every `SaleEntry`. -/
theorem truthy_null_variants_cex :
    calculateCommissions { baseSale with
        warranty_price := some 0, warranty_cost := some 1000 } ≠
      calculateCommissionsNullCheck { baseSale with
        warranty_price := some 0, warranty_cost := some 1000 } := by
  decide

/-- C4 as amended: the truthy-check code and the null-check variant return
identical `CommissionBreakdown`s for every `SaleEntry` in which neither
`warranty_price` nor `warranty_cost` is present with value zero; the
accessories and maintenance components agree unconditionally. -/
theorem truthy_null_variants_agree (s : SaleEntry)
    (hp : s.warranty_price ≠ some 0) (hc : s.warranty_cost ≠ some 0) :
    calculateCommissions s = calculateCommissionsNullCheck s := by
  have hacc := truthy_null_acc_agree s
  have hwarr := truthy_null_warr_agree s hp hc
  have hmaint := truthy_null_maint_agree s
  have hcar : (calculateCommissions s).carCommission =
      (calculateCommissionsNullCheck s).carCommission := rfl
  have htot : (calculateCommissions s).totalCommission =
      (calculateCommissionsNullCheck s).totalCommission := by
    rw [calc_total, calcNull_total, hcar, hacc, hwarr, hmaint]
  cases h1 : calculateCommissions s
  cases h2 : calculateCommissionsNullCheck s
  rw [h1, h2] at hcar hacc hwarr hmaint htot
  simp_all

/-- Witness for the amended C4: on a sale with warranty price 2500 and cost
500 (both non-zero) the two variants agree. -/
theorem truthy_null_variants_agree_witness :
    calculateCommissions { baseSale with
        warranty_price := some 2500, warranty_cost := some 500 } =
      calculateCommissionsNullCheck { baseSale with
        warranty_price := some 2500, warranty_cost := some 500 } :=
  truthy_null_variants_agree _ (by decide) (by decide)

/-- C5: `carCommission` is the step function of `sale_price` with tiers 200,
300, 400, 500 and strict upper bounds at 10000, 20000, 30000; in particular
`sale_price = 10000` falls in the 300 tier. -/
theorem car_commission_tiers (s : SaleEntry) :
    (s.sale_price < 10000 → (calculateCommissions s).carCommission = 200) ∧
      (10000 ≤ s.sale_price → s.sale_price < 20000 →
        (calculateCommissions s).carCommission = 300) ∧
      (20000 ≤ s.sale_price → s.sale_price < 30000 →
        (calculateCommissions s).carCommission = 400) ∧
      (30000 ≤ s.sale_price → (calculateCommissions s).carCommission = 500) := by
  rw [calc_car]
  refine ⟨?_, ?_, ?_, ?_⟩ <;> intros <;> split_ifs <;> omega

/-- Witness for C5: a sale priced exactly 10000 earns car commission 300. -/
theorem car_commission_tiers_witness :
    (calculateCommissions { baseSale with sale_price := 10000 }).carCommission
      = 300 :=
  (car_commission_tiers { baseSale with sale_price := 10000 }).2.1
    (by decide) (by decide)

/-- C6: `accessoriesCommission` is 100 exactly when `accessories_price` is
present, non-zero, and exceeds the sale-type threshold (988 for New, 488
otherwise) by more than 800; in every other case it is 0, so it never
exceeds 100. -/
theorem accessories_commission_binary (s : SaleEntry) :
    ((calculateCommissions s).accessoriesCommission = 100 ↔
        ∃ a, s.accessories_price = some a ∧ a ≠ 0 ∧
          a - (if s.sale_type = SaleType.New then 988 else 488) > 800) ∧
      ((calculateCommissions s).accessoriesCommission = 0 ∨
        (calculateCommissions s).accessoriesCommission = 100) := by
  rw [calc_acc]
  cases hap : s.accessories_price with
  | none => constructor
            · simp [truthy]
            · left; simp [truthy]
  | some a =>
    by_cases ha : a = 0
    · subst ha
      have hfalse : ¬ truthy (some 0) = true := by simp [truthy]
      rw [if_neg hfalse]
      constructor
      · constructor
        · intro h
          exact absurd h (by decide)
        · rintro ⟨b, hb, hb0, _⟩
          cases hb
          exact absurd rfl hb0
      · left; rfl
    · have htr : truthy (some a) = true := by simp [truthy, bne_iff_ne, ha]
      rw [if_pos htr]
      simp only [Option.getD_some]
      constructor
      · constructor
        · intro h
          refine ⟨a, rfl, ha, ?_⟩
          by_contra hgt
          rw [if_neg hgt] at h
          exact absurd h (by decide)
        · rintro ⟨b, hb, _, hgt⟩
          cases hb
          rw [if_pos hgt]
      · split_ifs <;> first | (right; rfl) | (left; rfl)

/-- Witness for C6: a Used sale with accessories price 1289 (801 over the
488 threshold) earns accessories commission 100. -/
theorem accessories_commission_binary_witness :
    (calculateCommissions { baseSale with
        accessories_price := some 1289 }).accessoriesCommission = 100 :=
  (accessories_commission_binary { baseSale with
      accessories_price := some 1289 }).1.mpr
    ⟨1289, rfl, by decide, by decide⟩

/-- C7: `maintenanceCommission` is 100 exactly when `maintenance_price` is
present and strictly greater than 800, and 0 otherwise. -/
theorem maintenance_commission_binary (s : SaleEntry) :
    ((calculateCommissions s).maintenanceCommission = 100 ↔
        ∃ m, s.maintenance_price = some m ∧ 800 < m) ∧
      (¬ (∃ m, s.maintenance_price = some m ∧ 800 < m) →
        (calculateCommissions s).maintenanceCommission = 0) := by
  rw [calc_maint]
  cases hmp : s.maintenance_price with
  | none => constructor
            · simp [truthy]
            · intro _; simp [truthy]
  | some m =>
    by_cases hm : 800 < m
    · have hm0 : m ≠ 0 := by omega
      constructor
      · simp [truthy, bne_iff_ne, hm0, hm]
      · intro h
        exact absurd ⟨m, rfl, hm⟩ h
    · constructor
      · constructor
        · intro h
          exfalso
          revert h
          simp [truthy, hm]
        · rintro ⟨n, hn, hgt⟩
          cases hn
          exact absurd hgt hm
      · intro _
        simp [truthy, hm]

/-- Witness for C7: maintenance price 801 earns 100 and maintenance price
800 earns 0. -/
theorem maintenance_commission_binary_witness :
    (calculateCommissions { baseSale with
        maintenance_price := some 801 }).maintenanceCommission = 100 ∧
      (calculateCommissions { baseSale with
        maintenance_price := some 800 }).maintenanceCommission = 0 :=
  ⟨(maintenance_commission_binary { baseSale with
        maintenance_price := some 801 }).1.mpr ⟨801, rfl, by decide⟩,
    (maintenance_commission_binary { baseSale with
        maintenance_price := some 800 }).2
      (by rintro ⟨m, hm, hgt⟩; cases hm; exact absurd hgt (by decide))⟩

/-- C8: `calculateCommissions` is a total function `SaleEntry →
CommissionBreakdown` (its Lean type carries no error case, mirroring the
source, which has no throw and no error return), and every absent optional
field contributes exactly 0 to its component. -/
theorem calculator_total_absent_fields_zero (s : SaleEntry) :
    (s.accessories_price = none →
      (calculateCommissions s).accessoriesCommission = 0) ∧
      (s.warranty_price = none ∨ s.warranty_cost = none →
        (calculateCommissions s).warrantyCommission = 0) ∧
      (s.maintenance_price = none →
        (calculateCommissions s).maintenanceCommission = 0) := by
  refine ⟨?_, ?_, ?_⟩
  · intro h; rw [calc_acc, h]; simp [truthy]
  · rintro (h | h) <;> rw [calc_warr, h] <;> simp [truthy]
  · intro h; rw [calc_maint, h]; simp [truthy]

/-- Witness for C8: with all four optional fields absent the calculator
returns accessories, warranty, and maintenance commissions of 0. -/
theorem calculator_total_absent_fields_zero_witness :
    (calculateCommissions baseSale).accessoriesCommission = 0 ∧
      (calculateCommissions baseSale).warrantyCommission = 0 ∧
      (calculateCommissions baseSale).maintenanceCommission = 0 :=
  ⟨(calculator_total_absent_fields_zero baseSale).1 rfl,
    (calculator_total_absent_fields_zero baseSale).2.1 (Or.inl rfl),
    (calculator_total_absent_fields_zero baseSale).2.2 rfl⟩

/-- C9: the calculator reads only `sale_price`, `sale_type`,
`accessories_price`, `warranty_price`, `warranty_cost`, and
`maintenance_price`: two sales agreeing on those six fields get equal
breakdowns, whatever their other fields (including `maintenance_cost`,
which the `SaleEntry` type declares but the calculator never reads). -/
theorem calculator_depends_only_on_six_fields (s1 s2 : SaleEntry)
    (h1 : s1.sale_price = s2.sale_price)
    (h2 : s1.sale_type = s2.sale_type)
    (h3 : s1.accessories_price = s2.accessories_price)
    (h4 : s1.warranty_price = s2.warranty_price)
    (h5 : s1.warranty_cost = s2.warranty_cost)
    (h6 : s1.maintenance_price = s2.maintenance_price) :
    calculateCommissions s1 = calculateCommissions s2 := by
  unfold calculateCommissions
  rw [h1, h2, h3, h4, h5, h6]

/-- Witness for C9: two sales agreeing on the six read fields but differing
in `maintenance_cost`, `id`, `customer_name`, and `date` get equal
breakdowns. -/
theorem calculator_depends_only_on_six_fields_witness :
    calculateCommissions { baseSale with
        maintenance_price := some 900, maintenance_cost := some 250 } =
      calculateCommissions { baseSale with
        maintenance_price := some 900, maintenance_cost := none,
        id := "sale-2", customer_name := "Grace", date := "2024-02-02" } :=
  calculator_depends_only_on_six_fields _ _ rfl rfl rfl rfl rfl rfl

/-- C10: every component and the total is an integer multiple of 100, with
`carCommission` in 200, 300, 400, 500 and the accessories and maintenance
components in 0, 100. -/
theorem components_multiples_of_100 (s : SaleEntry) :
    ((calculateCommissions s).carCommission = 200 ∨
        (calculateCommissions s).carCommission = 300 ∨
        (calculateCommissions s).carCommission = 400 ∨
        (calculateCommissions s).carCommission = 500) ∧
      ((calculateCommissions s).accessoriesCommission = 0 ∨
        (calculateCommissions s).accessoriesCommission = 100) ∧
      ((calculateCommissions s).maintenanceCommission = 0 ∨
        (calculateCommissions s).maintenanceCommission = 100) ∧
      (100 : Int) ∣ (calculateCommissions s).carCommission ∧
      (100 : Int) ∣ (calculateCommissions s).accessoriesCommission ∧
      (100 : Int) ∣ (calculateCommissions s).warrantyCommission ∧
      (100 : Int) ∣ (calculateCommissions s).maintenanceCommission ∧
      (100 : Int) ∣ (calculateCommissions s).totalCommission := by
  have hcar : (calculateCommissions s).carCommission = 200 ∨
      (calculateCommissions s).carCommission = 300 ∨
      (calculateCommissions s).carCommission = 400 ∨
      (calculateCommissions s).carCommission = 500 := by
    rw [calc_car]; split_ifs <;> simp
  have hacc : (calculateCommissions s).accessoriesCommission = 0 ∨
      (calculateCommissions s).accessoriesCommission = 100 := by
    rw [calc_acc]; split_ifs <;> simp
  have hmaint : (calculateCommissions s).maintenanceCommission = 0 ∨
      (calculateCommissions s).maintenanceCommission = 100 := by
    rw [calc_maint]; split_ifs <;> simp
  have hdcar : (100 : Int) ∣ (calculateCommissions s).carCommission := by
    rcases hcar with h | h | h | h <;> rw [h] <;> decide
  have hdacc : (100 : Int) ∣ (calculateCommissions s).accessoriesCommission := by
    rcases hacc with h | h <;> simp [h]
  have hdwarr : (100 : Int) ∣ (calculateCommissions s).warrantyCommission := by
    rw [calc_warr]
    split_ifs
    · exact dvd_mul_left 100 _
    · exact dvd_zero 100
  have hdmaint : (100 : Int) ∣ (calculateCommissions s).maintenanceCommission := by
    rcases hmaint with h | h <;> simp [h]
  have hdtot : (100 : Int) ∣ (calculateCommissions s).totalCommission := by
    rw [calc_total]
    exact dvd_add (dvd_add (dvd_add hdcar hdacc) hdwarr) hdmaint
  exact ⟨hcar, hacc, hmaint, hdcar, hdacc, hdwarr, hdmaint, hdtot⟩
